import Mathlib

/-!
Shallow embedding of the resume-review pipeline in `backend.py`
(Smart Resume Reviewer).  The pure parts of the program (prompt
construction, text extraction, response validation, report rendering,
retry policy) are translated into executable Lean definitions; the
network and the Streamlit widgets are modelled as explicit inputs
(oracles) of the corresponding functions.
-/

namespace Backend

/-! ## Python values

Python objects that can appear when the JSON body of an API response is
decoded (the result of `response.json()` / `json.loads`): `None`,
booleans, integers, strings, lists and dicts.  Floating point numbers do
not occur in any modelled scenario and are omitted. -/

inductive PyVal where
  | none
  | bool (b : Bool)
  | int (n : Int)
  | str (s : String)
  | list (xs : List PyVal)
  | dict (kvs : List (String × PyVal))

/-- Key lookup in the association list backing a modelled Python dict
(last occurrence wins in Python; source dicts here have unique keys, and
we return the first match). -/
def pyLookup : List (String × PyVal) → String → Option PyVal
  | [], _ => Option.none
  | (k, v) :: rest, key => if k == key then some v else pyLookup rest key

mutual

/-- Structural equality test on modelled Python values, used for the
membership operator on lists. -/
def PyVal.beq : PyVal → PyVal → Bool
  | .none, .none => true
  | .bool a, .bool b => a == b
  | .int a, .int b => a == b
  | .str a, .str b => a == b
  | .list a, .list b => PyVal.beqList a b
  | .dict a, .dict b => PyVal.beqKvs a b
  | _, _ => false

def PyVal.beqList : List PyVal → List PyVal → Bool
  | [], [] => true
  | a :: as', b :: bs' => PyVal.beq a b && PyVal.beqList as' bs'
  | _, _ => false

def PyVal.beqKvs : List (String × PyVal) → List (String × PyVal) → Bool
  | [], [] => true
  | (ka, va) :: as', (kb, vb) :: bs' => ka == kb && PyVal.beq va vb && PyVal.beqKvs as' bs'
  | _, _ => false

end

/-- Python truthiness (`bool(v)`): `None` is false, an empty string,
list or dict is false, zero is false. -/
def truthy : PyVal → Bool
  | .none => false
  | .bool b => b
  | .int n => decide (n ≠ 0)
  | .str s => decide (s ≠ "")
  | .list xs => !xs.isEmpty
  | .dict kvs => !kvs.isEmpty

mutual

/-- Python `repr` of a modelled value (string escaping nuances are
abstracted). -/
def pyRepr : PyVal → String
  | .none => "None"
  | .bool true => "True"
  | .bool false => "False"
  | .int n => toString n
  | .str s => "\x27" ++ s ++ "\x27"
  | .list xs => "[" ++ pyReprJoin xs ++ "]"
  | .dict kvs => "\x7b" ++ pyReprKvs kvs ++ "\x7d"

def pyReprJoin : List PyVal → String
  | [] => ""
  | [x] => pyRepr x
  | x :: rest => pyRepr x ++ ", " ++ pyReprJoin rest

def pyReprKvs : List (String × PyVal) → String
  | [] => ""
  | [(k, v)] => "\x27" ++ k ++ "\x27" ++ ": " ++ pyRepr v
  | (k, v) :: rest => "\x27" ++ k ++ "\x27" ++ ": " ++ pyRepr v ++ ", " ++ pyReprKvs rest

end

/-- Python `str(v)`, as used by f-string interpolation in the source. -/
def pyStr : PyVal → String
  | .str s => s
  | v => pyRepr v

/-! ## Python exceptions

The exceptions that the modelled fragment of the program can raise. -/

inductive PyExc where
  | keyError (k : String)
  | indexError
  | typeError (m : String)
  | attributeError (m : String)
  | jsonDecodeError (m : String)
deriving DecidableEq

/-- Python `str(e)` for the modelled exceptions (`str` of a `KeyError`
is the `repr` of the missing key). -/
def PyExc.asStr : PyExc → String
  | .keyError k => "\x27" ++ k ++ "\x27"
  | .indexError => "list index out of range"
  | .typeError m => m
  | .attributeError m => m
  | .jsonDecodeError m => m

/-- Whether the exception is one of the classes caught by the
`except (KeyError, IndexError, json.JSONDecodeError)` clause at line 199
of `backend.py`. -/
def PyExc.isCaught : PyExc → Bool
  | .keyError _ => true
  | .indexError => true
  | .jsonDecodeError _ => true
  | .typeError _ => false
  | .attributeError _ => false

/-- Python subscript with a string key (`v[k]`): `KeyError` on a dict
without the key, `TypeError` on values that are not dicts. -/
def PyVal.subscript : PyVal → String → Except PyExc PyVal
  | .dict kvs, k =>
    match pyLookup kvs k with
    | some v => .ok v
    | Option.none => .error (.keyError k)
  | .list _, _ => .error (.typeError "list indices must be integers or slices, not str")
  | _, _ => .error (.typeError "object is not subscriptable")

/-- Python subscript with a non-negative integer index (`v[i]`):
`IndexError` past the end of a list, `TypeError` on non-sequences
(an int key on a dict raises `KeyError` in Python; that case is mapped
to `KeyError` here as well). -/
def PyVal.index : PyVal → Nat → Except PyExc PyVal
  | .list xs, i =>
    match xs.get? i with
    | some v => .ok v
    | Option.none => .error .indexError
  | .str s, i =>
    match s.data.get? i with
    | some c => .ok (.str (String.mk [c]))
    | Option.none => .error .indexError
  | .dict _, _ => .error (.keyError "0")
  | _, _ => .error (.typeError "object is not subscriptable")

/-- Python `len(v)`: defined on strings, lists and dicts, `TypeError`
otherwise. -/
def pyLen : PyVal → Except PyExc Nat
  | .str s => .ok s.length
  | .list xs => .ok xs.length
  | .dict kvs => .ok kvs.length
  | _ => .error (.typeError "object has no len")

/-- Substring test on character lists, for the membership operator on
strings. -/
def charsContain (needle : List Char) : List Char → Bool
  | [] => needle.isEmpty
  | c :: cs => needle.isPrefixOf (c :: cs) || charsContain needle cs

/-- Python membership test with a string operand (`k in v`): key
membership on dicts, element membership on lists, substring test on
strings, `TypeError` otherwise. -/
def pyContains (v : PyVal) (k : String) : Except PyExc Bool :=
  match v with
  | .dict kvs => .ok (pyLookup kvs k).isSome
  | .list xs => .ok (xs.any (fun x => PyVal.beq x (.str k)))
  | .str s => .ok (charsContain k.data s.data)
  | _ => .error (.typeError "argument is not iterable")

/-- Python `dict.get(k)` as called on suggestion entries: the value, or
`None` when the key is absent; `AttributeError` when the receiver is not
a dict. -/
def suggGet (v : PyVal) (k : String) : Except PyExc PyVal :=
  match v with
  | .dict kvs =>
    match pyLookup kvs k with
    | some x => .ok x
    | Option.none => .ok .none
  | _ => .error (.attributeError "object has no attribute get")

/-! ## A model of `json.loads`

A small recursive-descent JSON parser producing modelled Python values
(the JSON literal `null` decodes to Python `None`).  The diagnostics are
short forms of the CPython `json` module messages.  Recursion is fueled
by the input length so that every definition is structurally
recursive and evaluable. -/

def isWsChar (c : Char) : Bool :=
  c == ' ' || c == '\n' || c == '\t' || c == '\r'

def skipWs : List Char → List Char
  | [] => []
  | c :: cs => if isWsChar c then skipWs cs else c :: cs

def isDigitChar (c : Char) : Bool :=
  '0' ≤ c && c ≤ '9'

def digitsToNat (acc : Nat) : List Char → Nat × List Char
  | [] => (acc, [])
  | c :: cs =>
    if isDigitChar c then digitsToNat (acc * 10 + (c.toNat - 48)) cs
    else (acc, c :: cs)

def parseIntTok : List Char → Except String (PyVal × List Char)
  | '-' :: cs =>
    match cs with
    | c :: _ =>
      if isDigitChar c then
        let p := digitsToNat 0 cs
        .ok (.int (-(p.1 : Int)), p.2)
      else .error "Expecting value"
    | [] => .error "Expecting value"
  | c :: cs =>
    if isDigitChar c then
      let p := digitsToNat 0 (c :: cs)
      .ok (.int (p.1 : Int), p.2)
    else .error "Expecting value"
  | [] => .error "Expecting value"

def parseStringChars : List Char → Except String (List Char × List Char)
  | [] => .error "Unterminated string"
  | '\x22' :: cs => .ok ([], cs)
  | '\x5c' :: e :: cs =>
    let ec := if e == 'n' then '\n' else if e == 't' then '\t' else if e == 'r' then '\r' else e
    (match parseStringChars cs with
     | .ok (chars, rest) => .ok (ec :: chars, rest)
     | .error m => .error m)
  | c :: cs =>
    (match parseStringChars cs with
     | .ok (chars, rest) => .ok (c :: chars, rest)
     | .error m => .error m)

mutual

def parseVal : Nat → List Char → Except String (PyVal × List Char)
  | fuel, s =>
    match skipWs s with
    | 'n' :: 'u' :: 'l' :: 'l' :: rest => .ok (.none, rest)
    | 't' :: 'r' :: 'u' :: 'e' :: rest => .ok (.bool true, rest)
    | 'f' :: 'a' :: 'l' :: 's' :: 'e' :: rest => .ok (.bool false, rest)
    | '\x22' :: rest =>
      (match parseStringChars rest with
       | .ok (chars, rest2) => .ok (.str (String.mk chars), rest2)
       | .error m => .error m)
    | '[' :: rest =>
      (match fuel with
       | 0 => .error "Nesting too deep"
       | f + 1 =>
         match skipWs rest with
         | ']' :: rest2 => .ok (.list [], rest2)
         | rest2 =>
           match parseItems f rest2 with
           | .ok (xs, rest3) => .ok (.list xs, rest3)
           | .error m => .error m)
    | '\x7b' :: rest =>
      (match fuel with
       | 0 => .error "Nesting too deep"
       | f + 1 =>
         match skipWs rest with
         | '\x7d' :: rest2 => .ok (.dict [], rest2)
         | rest2 =>
           match parseMembers f rest2 with
           | .ok (kvs, rest3) => .ok (.dict kvs, rest3)
           | .error m => .error m)
    | other => parseIntTok other

def parseItems : Nat → List Char → Except String (List PyVal × List Char)
  | 0, _ => .error "Nesting too deep"
  | f + 1, s =>
    match parseVal f s with
    | .error m => .error m
    | .ok (v, rest) =>
      match skipWs rest with
      | ',' :: rest2 =>
        (match parseItems f rest2 with
         | .ok (xs, rest3) => .ok (v :: xs, rest3)
         | .error m => .error m)
      | ']' :: rest2 => .ok ([v], rest2)
      | _ => .error "Expecting delimiter"

def parseMembers : Nat → List Char → Except String (List (String × PyVal) × List Char)
  | 0, _ => .error "Nesting too deep"
  | f + 1, s =>
    match skipWs s with
    | '\x22' :: rest =>
      (match parseStringChars rest with
       | .error m => .error m
       | .ok (kchars, rest2) =>
         match skipWs rest2 with
         | ':' :: rest3 =>
           (match parseVal f rest3 with
            | .error m => .error m
            | .ok (v, rest4) =>
              match skipWs rest4 with
              | ',' :: rest5 =>
                (match parseMembers f rest5 with
                 | .ok (kvs, rest6) => .ok ((String.mk kchars, v) :: kvs, rest6)
                 | .error m => .error m)
              | '\x7d' :: rest5 => .ok ([(String.mk kchars, v)], rest5)
              | _ => .error "Expecting delimiter"
            )
         | _ => .error "Expecting colon delimiter")
    | _ => .error "Expecting property name enclosed in double quotes"

end

/-- Model of `json.loads` on the embedded payload text. -/
def jsonLoads (s : String) : Except String PyVal :=
  match parseVal (s.length + 1) s.data with
  | .error m => .error m
  | .ok (v, rest) =>
    match skipWs rest with
    | [] => .ok v
    | _ => .error "Extra data"

/-! ## Language selection

The sidebar offers the four keys of the `languages` dict; the selected
name feeds the system prompt and the corresponding code is passed (and
ignored) as `lang_code`. -/

inductive Language where
  | English
  | Spanish
  | French
  | German
deriving DecidableEq

def Language.name : Language → String
  | .English => "English"
  | .Spanish => "Spanish"
  | .French => "French"
  | .German => "German"

/-- `languages[selected_language_name]` from lines 28 to 38. -/
def Language.code : Language → String
  | .English => "en"
  | .Spanish => "es"
  | .French => "fr"
  | .German => "de"

/-! ## Prompt construction (`get_llm_feedback`, lines 94 to 142)

The `system_prompt` f-string interpolates exactly one value, the
module-level `selected_language_name` holding the sidebar selection; the
doubled braces of the f-string denote literal braces. -/

/-- Literal text of the system prompt before the interpolated language
name. -/
def sysPromptIntro : String :=
  "\n    You are an expert career coach and a highly experienced resume reviewer. " ++
  "\n    Your task is to provide a comprehensive, constructive, and actionable review of a resume." ++
  "\n    \n    "

/-- The sentence of the system prompt that fixes the output language. -/
def languageMandate (langName : String) : String :=
  "Provide all your responses in " ++ langName ++ "."

/-- Literal text of the system prompt after the interpolated language
name, including the embedded output schema. -/
def sysPromptTail : String :=
  "\n    \n    Your final response must be a single JSON object with the following schema:\n" ++
  "\n    \x7b\n      \x22feedback_report\x22: \x7b" ++
  "\n        \x22areas_of_strength\x22: [\x22What the candidate does well. Use clear, bulleted points.\x22]," ++
  "\n        \x22suggestions_for_improvement\x22: [" ++
  "\n          \x7b\n            \x22heading\x22: \x22Clarity & Brevity\x22," ++
  "\n            \x22advice\x22: \x22Suggest how to be more concise or clear.\x22\n          \x7d," ++
  "\n          \x7b\n            \x22heading\x22: \x22Impactful Language\x22," ++
  "\n            \x22advice\x22: \x22Suggest using more action verbs and quantifying achievements.\x22\n          \x7d," ++
  "\n          \x7b\n            \x22heading\x22: \x22Missing Keywords\x22," ++
  "\n            \x22advice\x22: \x22Identify relevant skills or terms missing from the resume.\x22\n          \x7d," ++
  "\n          \x7b\n            \x22heading\x22: \x22Formatting & Readability\x22," ++
  "\n            \x22advice\x22: \x22Provide tips on layout, spacing, or font.\x22\n          \x7d," ++
  "\n          \x7b\n            \x22heading\x22: \x22Tailoring to the Job\x22," ++
  "\n            \x22advice\x22: \x22Explain how to better align their experience with the job description.\x22\n          \x7d" ++
  "\n        ]\n      \x7d,\n      \x22final_score\x22: \x7b" ++
  "\n        \x22rating\x22: \x22A score from 1 to 10. Do not include the \x27/10\x27.\x22," ++
  "\n        \x22summary\x22: \x22A brief paragraph summarizing the key takeaways.\x22\n      \x7d," ++
  "\n      \x22improved_resume\x22: \x22A fully rewritten, improved version of the resume in Markdown format. " ++
  "Ensure it follows all best practices and professional standards.\x22\n    \x7d" ++
  "\n    \n    The \x27improved_resume\x27 should be a complete, ready-to-use resume text." ++
  "\n    Do not add any text or explanation outside of this structured JSON format.\n    "

/-- The full `system_prompt` string for a given selected language
name. -/
def systemPrompt (langName : String) : String :=
  sysPromptIntro ++ languageMandate langName ++ sysPromptTail

/-- The leading part of `user_query` built at line 140: the resume
between dashes followed by the target job role. -/
def resumeSection (resume_text job_role : String) : String :=
  "Here is the resume to be reviewed:\n\n---\n" ++ resume_text ++
  "\n---\n\nTarget Job Role: " ++ job_role ++ "\n\n"

/-- The block appended at line 142 when `job_description` is truthy. -/
def jobDescriptionBlock (job_description : String) : String :=
  "Here is the job description for a more tailored review:\n\n---\n" ++
  job_description ++ "\n---"

/-- The full `user_query` string (lines 140 to 142): the job-description
block is appended only when `job_description` is non-empty. -/
def userQuery (resume_text job_role job_description : String) : String :=
  if job_description == "" then resumeSection resume_text job_role
  else resumeSection resume_text job_role ++ jobDescriptionBlock job_description

/-- One review request, as assembled from the widgets of a single
submission.  The language field is the sidebar selection backing the
module-level `selected_language_name`. -/
structure ReviewRequest where
  resume_text : String
  job_role : String
  job_description : String
  language : Language

/-- The (system_instruction, user_message) pair built for a request. -/
def buildPrompts (req : ReviewRequest) : String × String :=
  (systemPrompt req.language.name,
   userQuery req.resume_text req.job_role req.job_description)

/-! ## Text extraction (`extract_text_from_pdf`, lines 65 to 73)

A PDF document is modelled by what `pdfplumber` does with it: opening
it either throws, or yields the `page.extract_text()` result of each
page in document order (which Python-side is a string or `None`).  A
`None` page makes the newline join throw a `TypeError`; the `except`
clause then reports the error and the function returns `None`,
modelled as `Except.error` carrying the exception text. -/

inductive PdfDoc where
  | openError (msg : String)
  | pages (ps : List (Option String))

/-- Collects the page texts when every page produced one. -/
def allSome : List (Option String) → Option (List String)
  | [] => some []
  | Option.none :: _ => Option.none
  | some s :: rest =>
    match allSome rest with
    | some texts => some (s :: texts)
    | Option.none => Option.none

def extractTextFromPdf : PdfDoc → Except String String
  | .openError m => .error m
  | .pages ps =>
    match allSome ps with
    | some texts => .ok (String.intercalate "\n" texts)
    | Option.none => .error "sequence item: expected str instance, NoneType found"

/-! ## Retry policy (`make_api_call_with_retry`, lines 76 to 85)

The decorator is
`retry(stop=stop_after_attempt(5), wait=wait_exponential(multiplier=2, min=5, max=15))`.
In tenacity, `wait_exponential.__call__` computes
`max(max(0, min), min(multiplier * 2 ** attempt_number, max))` for the
attempt number (starting at 1) that has just failed, and
`stop_after_attempt(5)` stops, raising `RetryError`, once 5 attempts
have failed.  The network is modelled as a function from attempt
numbers to an optional result (`none` means the attempt raised). -/

def waitExponential (multiplier minW maxW attemptNumber : Nat) : Nat :=
  Nat.max (Nat.max 0 minW) (Nat.min (multiplier * 2 ^ attemptNumber) maxW)

/-- The wait slept after failed attempt number `attemptNumber` under the
configured policy. -/
def retryWait (attemptNumber : Nat) : Nat :=
  waitExponential 2 5 15 attemptNumber

inductive RetryResult (α : Type) where
  | success (attempts : Nat) (waits : List Nat) (v : α)
  | exhausted (attempts : Nat) (waits : List Nat)

def RetryResult.attempts : RetryResult α → Nat
  | .success a _ _ => a
  | .exhausted a _ => a

def RetryResult.waits : RetryResult α → List Nat
  | .success _ w _ => w
  | .exhausted _ w => w

/-- The retry loop: `fuel` is the number of retries still allowed after
the current attempt; `waits` accumulates the backoff sleeps performed so
far, in order. -/
def retryGo (call : Nat → Option α) : Nat → Nat → List Nat → RetryResult α
  | 0, attempt, waits =>
    (match call attempt with
     | some v => .success attempt waits v
     | Option.none => .exhausted attempt waits)
  | f + 1, attempt, waits =>
    (match call attempt with
     | some v => .success attempt waits v
     | Option.none => retryGo call f (attempt + 1) (waits ++ [retryWait attempt]))

/-- `make_api_call_with_retry`: first attempt is number 1, at most 4
retries after it (5 attempts in total). -/
def makeApiCallWithRetry (call : Nat → Option α) : RetryResult α :=
  retryGo call 4 1 []

/-! ## `get_llm_feedback` response processing (lines 87 to 200) -/

/-- The JSON payload posted to the endpoint (lines 144 to 179); the
constant `generationConfig` member does not influence any modelled
behaviour and is omitted. -/
structure Payload where
  userText : String
  systemText : String
deriving DecidableEq

def mkPayload (resume_text job_role job_description : String) (lang : Language) : Payload :=
  { userText := userQuery resume_text job_role job_description,
    systemText := systemPrompt lang.name }

/-- Outcome of `make_api_call_with_retry(payload)` followed by
`response.json()`: a decoded body, a `RetryError` after exhaustion, or a
body that fails to decode (a `requests` `JSONDecodeError`, which is a
`RequestException`). -/
inductive ApiOutcome where
  | ok (data : PyVal)
  | retryExhausted
  | badBody (msg : String)

/-- Errors that escape `get_llm_feedback` as exceptions: the
`RetryError` (caught by the button handler) and anything the `except`
clauses do not catch. -/
inductive PyError where
  | retryError
  | uncaught (e : PyExc)
deriving DecidableEq

def noResumeMsg : String := "Please upload a resume to get feedback."

def emptyResponseMsg : String := "Could not get a response from the AI. Please try again."

def apiErrorMsg : String := "An API error occurred. Please check the console for details."

/-- The message built at line 200 around the exception text. -/
def processingIssueMsg (diag : String) : String :=
  "There was an issue processing the AI\x27s response: " ++ diag ++
  ". The AI may have provided an unexpected output format."

/-- The condition of line 186:
`'candidates' in data and len(data['candidates']) > 0`. -/
def candidatesOk (data : PyVal) : Except PyExc Bool :=
  match pyContains data "candidates" with
  | .error e => .error e
  | .ok false => .ok false
  | .ok true =>
    match data.subscript "candidates" with
    | .error e => .error e
    | .ok c =>
      match pyLen c with
      | .error e => .error e
      | .ok n => .ok (decide (0 < n))

/-- The subscript chain of line 187:
`data['candidates'][0]['content']['parts'][0]['text']`. -/
def extractJsonStr (data : PyVal) : Except PyExc PyVal :=
  match data.subscript "candidates" with
  | .error e => .error e
  | .ok cands =>
    match cands.index 0 with
    | .error e => .error e
    | .ok c0 =>
      match c0.subscript "content" with
      | .error e => .error e
      | .ok content =>
        match content.subscript "parts" with
        | .error e => .error e
        | .ok parts =>
          match parts.index 0 with
          | .error e => .error e
          | .ok p0 => p0.subscript "text"

/-- `json.loads(json_str)` applied to the extracted value: a non-string
argument raises `TypeError`; a decode failure raises
`JSONDecodeError`. -/
def parseStage (txt : PyVal) : Except PyExc (PyVal × PyVal) :=
  match txt with
  | .str s =>
    (match jsonLoads s with
     | .ok v => .ok (v, .none)
     | .error m => .error (.jsonDecodeError m))
  | _ => .error (.typeError "the JSON object must be str, bytes or bytearray")

/-- The body of the `try` block of lines 185 to 190 once the decoded
response `data` is in hand: either the pair returned (result, error) or
the exception raised. -/
def tryBody (data : PyVal) : Except PyExc (PyVal × PyVal) :=
  match candidatesOk data with
  | .error e => .error e
  | .ok false => .ok (.none, .str emptyResponseMsg)
  | .ok true =>
    match extractJsonStr data with
    | .error e => .error e
    | .ok txt => parseStage txt

/-- `get_llm_feedback`: the network exchange is an oracle mapping the
posted payload to its outcome.  The returned pair is `(result, error)`;
exceptions that the function does not catch are surfaced in the
`Except` layer. -/
def getLLMFeedback (resume_text job_role job_description : String) (lang : Language)
    (api : Payload → ApiOutcome) : Except PyError (PyVal × PyVal) :=
  if resume_text == "" then .ok (.none, .str noResumeMsg)
  else
    match api (mkPayload resume_text job_role job_description lang) with
    | .retryExhausted => .error .retryError
    | .badBody _ => .ok (.none, .str apiErrorMsg)
    | .ok data =>
      match tryBody data with
      | .ok r => .ok r
      | .error e =>
        if e.isCaught then .ok (.none, .str (processingIssueMsg e.asStr))
        else .error (.uncaught e)

/-! ## Button handler and rendering (lines 204 to 274)

Each Streamlit output call of the handler is recorded as one step, in
program order; `networkCall` marks the invocation of the API client
inside `get_llm_feedback`, and `crash` marks an exception that no
handler catches (Streamlit then displays a traceback). -/

inductive Step where
  | warn (s : String)
  | err (s : String)
  | subheader (s : String)
  | write (s : String)
  | markdown (s : String)
  | code (s : String)
  | success (s : String)
  | networkCall
  | crash (e : PyExc)
deriving DecidableEq

/-- One iteration of the suggestion loop (lines 243 to 252): reads both
keys with `.get`, renders the pair when both are truthy, silently skips
the entry otherwise. -/
def renderSuggLine (s : PyVal) : Except PyExc (Option String) :=
  match suggGet s "heading" with
  | .error e => .error e
  | .ok h =>
    match suggGet s "advice" with
    | .error e => .error e
    | .ok a =>
      if truthy h && truthy a then
        .ok (some ("**" ++ pyStr h ++ ":** " ++ pyStr a))
      else .ok Option.none

/-- The whole suggestion loop: the rendered lines in order and the
exception, if any, that aborted the loop. -/
def renderSuggList : List PyVal → List Step × Option PyExc
  | [] => ([], Option.none)
  | s :: rest =>
    match renderSuggLine s with
    | .error e => ([], some e)
    | .ok Option.none => renderSuggList rest
    | .ok (some line) =>
      let t := renderSuggList rest
      (Step.markdown line :: t.1, t.2)

/-- The strengths loop (lines 238 to 239): every element is rendered. -/
def renderStrengthLines (xs : List PyVal) : List Step :=
  xs.map (fun v => Step.markdown ("- " ++ pyStr v))

/-- Python iteration (`for x in v`): elements of a list, keys of a dict,
characters of a string, `TypeError` otherwise. -/
def pyIter : PyVal → Except PyExc (List PyVal)
  | .list xs => .ok xs
  | .dict kvs => .ok (kvs.map (fun kv => PyVal.str kv.1))
  | .str s => .ok (s.data.map (fun c => PyVal.str (String.mk [c])))
  | _ => .error (.typeError "object is not iterable")

/-- The report rendering of lines 233 to 258, entered only after
`feedback_data and "final_score" in feedback_data` held: the emitted
steps in order, plus the uncaught exception that interrupted them, if
any. -/
def renderReport (job_role : String) (fd : PyVal) : List Step × Option PyExc :=
  let s1 := [Step.markdown ("### Resume Review for " ++ job_role)]
  match (match fd.subscript "final_score" with
         | .error e => .error e
         | .ok fs => fs.subscript "rating" : Except PyExc PyVal) with
  | .error e => (s1, some e)
  | .ok rating =>
  let s2 := s1 ++ [Step.markdown ("**Overall Rating:** " ++ pyStr rating ++ "/10")]
  match (match fd.subscript "final_score" with
         | .error e => .error e
         | .ok fs => fs.subscript "summary" : Except PyExc PyVal) with
  | .error e => (s2, some e)
  | .ok summary =>
  let s3 := s2 ++ [Step.markdown ("**Summary:** " ++ pyStr summary)]
  let s4 := s3 ++ [Step.markdown "### Areas of Strength"]
  match (match fd.subscript "feedback_report" with
         | .error e => .error e
         | .ok fr => fr.subscript "areas_of_strength" : Except PyExc PyVal) with
  | .error e => (s4, some e)
  | .ok strengths =>
  match pyIter strengths with
  | .error e => (s4, some e)
  | .ok strengthList =>
  let s5 := s4 ++ renderStrengthLines strengthList ++ [Step.markdown "### Suggestions for Improvement"]
  match (match fd.subscript "feedback_report" with
         | .error e => .error e
         | .ok fr => fr.subscript "suggestions_for_improvement" : Except PyExc PyVal) with
  | .error e => (s5, some e)
  | .ok suggs =>
  match pyIter suggs with
  | .error e => (s5, some e)
  | .ok suggList =>
  match renderSuggList suggList with
  | (lines, some e) => (s5 ++ lines, some e)
  | (lines, Option.none) =>
  let s6 := s5 ++ lines ++ [Step.markdown "### Improved Resume Version"]
  match fd.subscript "improved_resume" with
  | .error e => (s6, some e)
  | .ok ir =>
  (s6 ++ [Step.code (pyStr ir), Step.write "---", Step.success "Analysis complete!"], Option.none)

/-- An uploaded file: its declared type and either the PDF document or
the decoded text content. -/
structure UploadedFile where
  isPdf : Bool
  pdf : PdfDoc
  text : String

/-- The click handler of lines 204 to 274.  Its external collaborators
are explicit inputs: the widget values, the presence of the API key
secret, and the network oracle. -/
def buttonHandler (job_role : String) (uploaded : Option UploadedFile)
    (apiKeyPresent : Bool) (job_description : String) (lang : Language)
    (api : Payload → ApiOutcome) : List Step :=
  if job_role == "" then [Step.warn "Please specify a target job role."]
  else
    match uploaded with
    | Option.none => [Step.warn "Please upload a resume file."]
    | some f =>
      if !apiKeyPresent then
        [Step.err "API key not found. Please set the Gemini API key in your .streamlit/secrets.toml file."]
      else
        match (if f.isPdf then extractTextFromPdf f.pdf else .ok f.text) with
        | .error m => [Step.err ("Error extracting text from PDF: " ++ m)]
        | .ok resume_content =>
          if resume_content == "" then []
          else
            let base := [Step.subheader "AI Feedback Report", Step.write "---", Step.networkCall]
            match getLLMFeedback resume_content job_role job_description lang api with
            | .error .retryError =>
              base ++ [Step.err "The API is currently unavailable. Please try again in a few moments."]
            | .error (.uncaught e) => base ++ [Step.crash e]
            | .ok (feedback_data, error) =>
              if truthy error then base ++ [Step.err (pyStr error)]
              else
                match (if truthy feedback_data then pyContains feedback_data "final_score"
                       else .ok false) with
                | .error e => base ++ [Step.crash e]
                | .ok false =>
                  base ++ [Step.err "The AI returned an invalid or incomplete response. Please try again."]
                | .ok true =>
                  match renderReport job_role feedback_data with
                  | (lines, some e) => base ++ lines ++ [Step.crash e]
                  | (lines, Option.none) => base ++ lines

/-! ## Schema well-formedness (section 3 of the specification)

A suggestion entry is schema-valid when it is an object with string
`heading` and `advice` members; the full payload is schema-valid when
all three top-level members have the documented shapes. -/

def wellFormedSuggestion (v : PyVal) : Bool :=
  match v with
  | .dict kvs =>
    (match pyLookup kvs "heading" with
     | some (.str _) => true
     | _ => false) &&
    (match pyLookup kvs "advice" with
     | some (.str _) => true
     | _ => false)
  | _ => false

def allStrings : List PyVal → Bool
  | [] => true
  | .str _ :: rest => allStrings rest
  | _ => false

def wellFormedFeedbackPayload (fd : PyVal) : Bool :=
  match fd with
  | .dict kvs =>
    (match pyLookup kvs "feedback_report" with
     | some (.dict fr) =>
       (match pyLookup fr "areas_of_strength" with
        | some (.list xs) => allStrings xs
        | _ => false) &&
       (match pyLookup fr "suggestions_for_improvement" with
        | some (.list ss) => ss.all wellFormedSuggestion
        | _ => false)
     | _ => false) &&
    (match pyLookup kvs "final_score" with
     | some (.dict fs) =>
       (match pyLookup fs "rating" with
        | some (.int _) => true
        | _ => false) &&
       (match pyLookup fs "summary" with
        | some (.str _) => true
        | _ => false)
     | _ => false) &&
    (match pyLookup kvs "improved_resume" with
     | some (.str _) => true
     | _ => false)
  | _ => false

/-- The suggestion array of a payload (empty for shapes the schema
forbids). -/
def suggestionsOf (fd : PyVal) : List PyVal :=
  match fd with
  | .dict kvs =>
    match pyLookup kvs "feedback_report" with
    | some (.dict fr) =>
      (match pyLookup fr "suggestions_for_improvement" with
       | some (.list ss) => ss
       | _ => [])
    | _ => []
  | _ => []

/-- The strengths array of a payload. -/
def strengthsOf (fd : PyVal) : List PyVal :=
  match fd with
  | .dict kvs =>
    match pyLookup kvs "feedback_report" with
    | some (.dict fr) =>
      (match pyLookup fr "areas_of_strength" with
       | some (.list xs) => xs
       | _ => [])
    | _ => []
  | _ => []

/-- A suggestion entry that the loop renders: both keys read by `.get`
are truthy. -/
def suggComplete (s : PyVal) : Bool :=
  match suggGet s "heading", suggGet s "advice" with
  | .ok h, .ok a => truthy h && truthy a
  | _, _ => false

/-! ## Concrete API responses and payloads used in the theorems -/

/-- A modelled response body whose single candidate embeds the given
payload text. -/
def respWithText (payload : String) : PyVal :=
  .dict [("candidates", .list [
    .dict [("content", .dict [("parts", .list [
      .dict [("text", .str payload)]])])]])]

/-- A response whose embedded payload text parses but lacks every
required key except `final_score`. -/
def respMissingKeys : PyVal :=
  respWithText "\x7b\x22final_score\x22: \x7b\x22rating\x22: 8, \x22summary\x22: \x22ok\x22\x7d\x7d"

/-- A response whose embedded payload text is the JSON literal
`null`. -/
def respNullPayload : PyVal :=
  respWithText "null"

/-- A response whose embedded payload text is not valid JSON. -/
def respBadJson : PyVal :=
  respWithText "nope"

/-- A schema-valid feedback payload whose single suggestion has an
empty-string heading. -/
def fdEmptyHeading : PyVal :=
  .dict [
    ("feedback_report", .dict [
      ("areas_of_strength", .list [.str "good summary"]),
      ("suggestions_for_improvement", .list [.dict [("heading", .str ""), ("advice", .str "be brief")]])]),
    ("final_score", .dict [("rating", .int 7), ("summary", .str "fine")]),
    ("improved_resume", .str "# Resume")]

/-- A schema-valid feedback payload with non-empty suggestion texts. -/
def fdComplete : PyVal :=
  .dict [
    ("feedback_report", .dict [
      ("areas_of_strength", .list [.str "clear layout"]),
      ("suggestions_for_improvement", .list [.dict [("heading", .str "Clarity"), ("advice", .str "shorten")]])]),
    ("final_score", .dict [("rating", .int 8), ("summary", .str "solid")]),
    ("improved_resume", .str "# Resume")]

/-! ## Theorems -/

/-- C1: the built user_message begins with the resume section (resume
text between dashes, then the target job role); with non-empty
job_description the job-description block follows it, with empty
job_description the message is exactly the resume section; and the
Data Analyst scenario produces the exact quoted string. -/
theorem c1_user_message :
    ∀ resume_text job_role job_description : String,
      (job_description ≠ "" →
        userQuery resume_text job_role job_description =
          resumeSection resume_text job_role ++ jobDescriptionBlock job_description) ∧
      (job_description = "" →
        userQuery resume_text job_role job_description =
          resumeSection resume_text job_role) ∧
      (∃ rest, userQuery resume_text job_role job_description =
        resumeSection resume_text job_role ++ rest) ∧
      userQuery "Experienced analyst..." "Data Analyst" "" =
        "Here is the resume to be reviewed:\n\n---\nExperienced analyst...\n---\n\nTarget Job Role: Data Analyst\n\n" := by
  intro r j d
  refine ⟨?_, ?_, ?_, rfl⟩
  · intro hd
    have hb : (d == "") = false := beq_eq_false_iff_ne.mpr hd
    simp [userQuery, hb]
  · intro hd
    subst hd
    simp [userQuery]
  · by_cases hd : d = ""
    · subst hd
      exact ⟨"", by simp [userQuery]⟩
    · have hb : (d == "") = false := beq_eq_false_iff_ne.mpr hd
      exact ⟨jobDescriptionBlock d, by simp [userQuery, hb]⟩

/-- Witness for C1 at the quoted scenario inputs. -/
theorem c1_user_message_witness :
    userQuery "Experienced analyst..." "Data Analyst" "" =
      resumeSection "Experienced analyst..." "Data Analyst" :=
  (c1_user_message "Experienced analyst..." "Data Analyst" "").2.1 rfl

/-- C3: for a readable PDF, extraction returns exactly the page texts
joined with newlines, in page order; and whenever extraction throws
(open failure or a page without text), the function yields only an
error, never a partial join. -/
theorem c3_pdf_extraction :
    ∀ doc : PdfDoc,
      (∀ ps texts, doc = PdfDoc.pages ps → allSome ps = some texts →
        extractTextFromPdf doc = .ok (String.intercalate "\n" texts)) ∧
      (∀ s, extractTextFromPdf doc = .ok s →
        ∃ ps texts, doc = PdfDoc.pages ps ∧ allSome ps = some texts ∧
          s = String.intercalate "\n" texts) := by
  intro doc
  constructor
  · intro ps texts hdoc hsome
    subst hdoc
    simp [extractTextFromPdf, hsome]
  · intro s hs
    cases doc with
    | openError m => simp [extractTextFromPdf] at hs
    | pages ps =>
      cases hsome : allSome ps with
      | none => simp [extractTextFromPdf, hsome] at hs
      | some texts =>
        refine ⟨ps, texts, rfl, hsome, ?_⟩
        simp [extractTextFromPdf, hsome] at hs
        exact hs.symm

/-- Witness for C3 on a two-page document. -/
theorem c3_pdf_extraction_witness :
    extractTextFromPdf (PdfDoc.pages [some "alpha", some "beta"]) =
      .ok (String.intercalate "\n" ["alpha", "beta"]) :=
  (c3_pdf_extraction (PdfDoc.pages [some "alpha", some "beta"])).1
    [some "alpha", some "beta"] ["alpha", "beta"] rfl rfl

/-- C8: prompt building is a pure function of the request fields (equal
requests give identical prompt pairs), and the system instruction
contains the sentence mandating output in the selected language, naming
that language. -/
theorem c8_prompt_purity :
    ∀ r1 r2 : ReviewRequest, r1 = r2 →
      buildPrompts r1 = buildPrompts r2 ∧
      ∃ pre post, (buildPrompts r1).1 =
        pre ++ ("Provide all your responses in " ++ r1.language.name ++ ".") ++ post := by
  intro r1 r2 h
  exact ⟨by rw [h], sysPromptIntro, sysPromptTail, rfl⟩

/-- The clamped exponential wait, written as the specification writes
it. -/
lemma retryWait_eq (n : Nat) :
    retryWait n = Nat.min (Nat.max (2 * 2 ^ n) 5) 15 := by
  unfold retryWait waitExponential
  simp only [Nat.max_def, Nat.min_def]
  split_ifs <;> omega

lemma retryWait_bounds (n : Nat) : 5 ≤ retryWait n ∧ retryWait n ≤ 15 := by
  unfold retryWait waitExponential
  simp only [Nat.max_def, Nat.min_def]
  split_ifs <;> omega

lemma retryWait_mono {m n : Nat} (h : m ≤ n) : retryWait m ≤ retryWait n := by
  have h2 : 2 ^ m ≤ 2 ^ n := Nat.pow_le_pow_right (by norm_num) h
  unfold retryWait waitExponential
  simp only [Nat.max_def, Nat.min_def]
  split_ifs <;> omega

/-- The waits of consecutive attempt numbers form a non-decreasing
chain. -/
lemma chain_retryWait_range :
    ∀ k s : Nat, List.Chain' (fun a b => a ≤ b) ((List.range' s k).map retryWait) := by
  intro k
  induction k with
  | zero => intro s; simp
  | succ k ih =>
    intro s
    rw [List.range'_succ, List.map_cons]
    refine List.chain'_cons'.mpr ⟨?_, ih (s + 1)⟩
    intro b hb
    cases k with
    | zero => simp at hb
    | succ k2 =>
      rw [List.range'_succ, List.map_cons] at hb
      simp only [List.head?_cons, Option.mem_def, Option.some.injEq] at hb
      subst hb
      exact retryWait_mono (Nat.le_succ s)

/-- Complete characterisation of one run of the retry loop: some number
`k ≤ fuel` of failed attempts precede the result, the performed waits
are exactly the clamped exponential waits of those attempts in order,
and exhaustion happens exactly when the fuel ran out with every attempt
failing. -/
lemma retryGo_spec {α : Type} (call : Nat → Option α) :
    ∀ (fuel attempt : Nat) (waits : List Nat),
      ∃ k, k ≤ fuel ∧
        (retryGo call fuel attempt waits).attempts = attempt + k ∧
        (retryGo call fuel attempt waits).waits =
          waits ++ (List.range' attempt k).map retryWait ∧
        (∀ a w, retryGo call fuel attempt waits = .exhausted a w →
          k = fuel ∧ ∀ i, attempt ≤ i → i ≤ attempt + fuel → call i = Option.none) := by
  intro fuel
  induction fuel with
  | zero =>
    intro attempt waits
    cases hc : call attempt with
    | some v =>
      refine ⟨0, Nat.le_refl 0, ?_, ?_, ?_⟩
      · simp [retryGo, hc, RetryResult.attempts]
      · simp [retryGo, hc, RetryResult.waits]
      · intro a w hres
        simp [retryGo, hc] at hres
    | none =>
      refine ⟨0, Nat.le_refl 0, ?_, ?_, ?_⟩
      · simp [retryGo, hc, RetryResult.attempts]
      · simp [retryGo, hc, RetryResult.waits]
      · intro a w _
        refine ⟨rfl, ?_⟩
        intro i h1 h2
        have he : i = attempt := by omega
        subst he
        exact hc
  | succ f ih =>
    intro attempt waits
    cases hc : call attempt with
    | some v =>
      refine ⟨0, Nat.zero_le _, ?_, ?_, ?_⟩
      · simp [retryGo, hc, RetryResult.attempts]
      · simp [retryGo, hc, RetryResult.waits]
      · intro a w hres
        simp [retryGo, hc] at hres
    | none =>
      obtain ⟨k, hk, hatt, hwaits, hexh⟩ := ih (attempt + 1) (waits ++ [retryWait attempt])
      have hstep : retryGo call (f + 1) attempt waits =
          retryGo call f (attempt + 1) (waits ++ [retryWait attempt]) := by
        simp [retryGo, hc]
      refine ⟨k + 1, by omega, ?_, ?_, ?_⟩
      · rw [hstep, hatt]; omega
      · rw [hstep, hwaits, List.range'_succ, List.map_cons]
        simp
      · intro a w hres
        rw [hstep] at hres
        obtain ⟨hk2, hall⟩ := hexh a w hres
        refine ⟨by omega, ?_⟩
        intro i h1 h2
        rcases Nat.eq_or_lt_of_le h1 with h | h
        · subst h; exact hc
        · exact hall i (by omega) (by omega)

/-- C2: the retry component makes at most 5 attempts; each wait equals
min(max(2 times 2 to the attempt number, 5), 15); every performed wait
lies in the interval from 5 to 15 seconds and the waits are
non-decreasing; and retry exhaustion (the `RetryError` surfaced as a
terminal failure) occurs exactly after 5 failed attempts. -/
theorem c2_retry_policy {α : Type} (call : Nat → Option α) :
    (makeApiCallWithRetry call).attempts ≤ 5 ∧
    (∀ n, retryWait n = Nat.min (Nat.max (2 * 2 ^ n) 5) 15) ∧
    (∀ w ∈ (makeApiCallWithRetry call).waits, 5 ≤ w ∧ w ≤ 15) ∧
    List.Chain' (fun a b => a ≤ b) (makeApiCallWithRetry call).waits ∧
    (∀ a ws, makeApiCallWithRetry call = RetryResult.exhausted a ws →
      a = 5 ∧ ∀ i, 1 ≤ i → i ≤ 5 → call i = Option.none) := by
  have hma : makeApiCallWithRetry call = retryGo call 4 1 [] := rfl
  obtain ⟨k, hk, hatt, hwaits, hexh⟩ := retryGo_spec call 4 1 []
  refine ⟨?_, retryWait_eq, ?_, ?_, ?_⟩
  · rw [hma, hatt]; omega
  · intro w hw
    rw [hma, hwaits] at hw
    simp only [List.nil_append, List.mem_map] at hw
    obtain ⟨i, _, rfl⟩ := hw
    exact retryWait_bounds i
  · rw [hma, hwaits]
    simpa using chain_retryWait_range k 1
  · intro a ws hres
    rw [hma] at hres
    obtain ⟨hk4, hall⟩ := hexh a ws hres
    have ha : (retryGo call 4 1 []).attempts = a := by
      rw [hres]
      simp [RetryResult.attempts]
    constructor
    · omega
    · intro i h1 h5
      exact hall i h1 (by omega)

/-- Witness for C2: the always-failing oracle exhausts after exactly 5
attempts with waits 5, 8, 15, 15. -/
theorem c2_retry_policy_witness :
    (makeApiCallWithRetry (fun _ => (Option.none : Option Unit))).attempts ≤ 5 ∧
    (5 ≤ 5 ∧ 5 ≤ 15) ∧
    (fun _ => (Option.none : Option Unit)) 3 = Option.none := by
  refine ⟨(c2_retry_policy (fun _ => (Option.none : Option Unit))).1, ?_, ?_⟩
  · exact (c2_retry_policy (fun _ => (Option.none : Option Unit))).2.2.1 5 (by decide)
  · exact ((c2_retry_policy (fun _ => (Option.none : Option Unit))).2.2.2.2
      5 [5, 8, 15, 15] rfl).2 3 (by decide) (by decide)

/-- Witness for C8 at a concrete request. -/
theorem c8_prompt_purity_witness :
    buildPrompts ⟨"resume", "job", "", Language.Spanish⟩ =
      buildPrompts ⟨"resume", "job", "", Language.Spanish⟩ ∧
    ∃ pre post, (buildPrompts ⟨"resume", "job", "", Language.Spanish⟩).1 =
      pre ++ ("Provide all your responses in " ++ Language.Spanish.name ++ ".") ++ post :=
  c8_prompt_purity ⟨"resume", "job", "", Language.Spanish⟩ _ rfl

lemma parseStage_ok (txt : PyVal) (a b : PyVal) (h : parseStage txt = .ok (a, b)) :
    ∃ s, txt = .str s ∧ jsonLoads s = .ok a ∧ b = .none := by
  cases txt with
  | str s =>
    cases hj : jsonLoads s with
    | error m => simp [parseStage, hj] at h
    | ok v =>
      simp only [parseStage, hj, Except.ok.injEq, Prod.mk.injEq] at h
      exact ⟨s, rfl, by rw [hj, h.1], h.2.symm⟩
  | none => simp [parseStage] at h
  | bool v => simp [parseStage] at h
  | int v => simp [parseStage] at h
  | list v => simp [parseStage] at h
  | dict v => simp [parseStage] at h

/-- The pairs `get_llm_feedback` can return from a decoded response
body: the no-candidates message, or the parsed payload with no
error. -/
lemma tryBody_ok (data : PyVal) (a b : PyVal) (h : tryBody data = .ok (a, b)) :
    (candidatesOk data = .ok false ∧ a = .none ∧ b = .str emptyResponseMsg) ∨
    (∃ s, candidatesOk data = .ok true ∧ extractJsonStr data = .ok (.str s) ∧
      jsonLoads s = .ok a ∧ b = .none) := by
  unfold tryBody at h
  cases hc : candidatesOk data with
  | error e => rw [hc] at h; simp at h
  | ok bb =>
    rw [hc] at h
    cases bb with
    | false =>
      left
      simp only [Except.ok.injEq, Prod.mk.injEq] at h
      exact ⟨rfl, h.1.symm, h.2.symm⟩
    | true =>
      cases he : extractJsonStr data with
      | error e => rw [he] at h; simp at h
      | ok txt =>
        rw [he] at h
        obtain ⟨s, htxt, hj, hb⟩ := parseStage_ok txt a b h
        subst htxt
        exact Or.inr ⟨s, rfl, rfl, hj, hb⟩

/-- C4 (amended): a decoded response body without a truthy, non-empty
`candidates` member makes `get_llm_feedback` return no result and the
error message that begins with the quoted text (the full message has
the suffix inviting a retry). -/
theorem c4_empty_response_amended :
    ∀ (resume_text job_role job_description : String) (lang : Language)
      (api : Payload → ApiOutcome) (data : PyVal),
      resume_text ≠ "" →
      api (mkPayload resume_text job_role job_description lang) = ApiOutcome.ok data →
      candidatesOk data = .ok false →
      getLLMFeedback resume_text job_role job_description lang api =
        .ok (.none, .str emptyResponseMsg) ∧
      emptyResponseMsg = "Could not get a response from the AI" ++ ". Please try again." := by
  intro rt jr jd lang api data hrt hapi hc
  have hb : (rt == "") = false := beq_eq_false_iff_ne.mpr hrt
  refine ⟨?_, rfl⟩
  unfold getLLMFeedback
  rw [hb]
  simp only [Bool.false_eq_true, if_false]
  rw [hapi]
  simp [tryBody, hc]

/-- Witness for the amended C4 at a concrete empty body. -/
theorem c4_empty_response_amended_witness :
    getLLMFeedback "resume" "job" "" Language.English
        (fun _ => ApiOutcome.ok (PyVal.dict [])) =
      .ok (.none, .str emptyResponseMsg) ∧
    emptyResponseMsg = "Could not get a response from the AI" ++ ". Please try again." :=
  c4_empty_response_amended "resume" "job" "" Language.English
    (fun _ => ApiOutcome.ok (PyVal.dict [])) (PyVal.dict []) (by decide) rfl rfl

/-- Counterexample to C4 as stated: for a body with no `candidates`
member the returned user-facing message is not equal to the quoted
string (it carries an extra sentence). -/
theorem c4_empty_response_cx :
    getLLMFeedback "resume" "Data Analyst" "" Language.English
        (fun _ => ApiOutcome.ok (PyVal.dict [])) =
      .ok (.none, .str "Could not get a response from the AI. Please try again.") ∧
    "Could not get a response from the AI. Please try again." ≠
      "Could not get a response from the AI" :=
  ⟨rfl, by decide⟩

/-- C5 (amended): when the embedded payload text fails to parse as
JSON, `get_llm_feedback` returns no result together with a descriptive
message that contains the parse diagnostic, and raises nothing; but a
payload that parses while missing required keys of the schema is
returned as the result with no error (see the counterexample for what
rendering then does). -/
theorem c5_parse_failure_amended :
    ∀ (resume_text job_role job_description : String) (lang : Language)
      (api : Payload → ApiOutcome) (data : PyVal) (s diag : String),
      resume_text ≠ "" →
      api (mkPayload resume_text job_role job_description lang) = ApiOutcome.ok data →
      candidatesOk data = .ok true →
      extractJsonStr data = .ok (.str s) →
      jsonLoads s = .error diag →
      getLLMFeedback resume_text job_role job_description lang api =
        .ok (.none, .str (processingIssueMsg diag)) ∧
      ∃ pre post, processingIssueMsg diag = pre ++ diag ++ post := by
  intro rt jr jd lang api data s diag hrt hapi hc he hj
  have hb : (rt == "") = false := beq_eq_false_iff_ne.mpr hrt
  constructor
  · unfold getLLMFeedback
    rw [hb]
    simp only [Bool.false_eq_true, if_false]
    rw [hapi]
    simp [tryBody, hc, he, parseStage, hj, PyExc.isCaught, PyExc.asStr]
  · exact ⟨"There was an issue processing the AI\x27s response: ",
      ". The AI may have provided an unexpected output format.", rfl⟩

/-- Witness for the amended C5 at a concrete invalid payload text. -/
theorem c5_parse_failure_amended_witness :
    getLLMFeedback "resume" "job" "" Language.English
        (fun _ => ApiOutcome.ok respBadJson) =
      .ok (.none, .str (processingIssueMsg "Expecting value")) ∧
    ∃ pre post, processingIssueMsg "Expecting value" = pre ++ "Expecting value" ++ post :=
  c5_parse_failure_amended "resume" "job" "" Language.English
    (fun _ => ApiOutcome.ok respBadJson) respBadJson "nope" "Expecting value"
    (by decide) (by rfl) (by rfl) (by rfl) (by rfl)

/-- Counterexample to C5 as stated: a payload that parses but lacks the
required `feedback_report` key is returned as a result with no error,
and the click handler then dies with an uncaught `KeyError` (a raw
traceback), not a `MalformedResponseError` message. -/
theorem c5_missing_keys_cx :
    getLLMFeedback "resume" "Data Analyst" "" Language.English
        (fun _ => ApiOutcome.ok respMissingKeys) =
      .ok (.dict [("final_score", .dict [("rating", .int 8), ("summary", .str "ok")])], .none) ∧
    (buttonHandler "Data Analyst" (some ⟨false, PdfDoc.pages [], "resume"⟩) true ""
        Language.English (fun _ => ApiOutcome.ok respMissingKeys)).getLast? =
      some (Step.crash (PyExc.keyError "feedback_report")) :=
  ⟨by rfl, by rfl⟩

/-- C9 (amended): `get_llm_feedback` never returns a pair with both
components set; it returns a pair with neither set exactly when the
embedded payload text is the JSON literal null, which `json.loads`
decodes to Python `None`. -/
theorem c9_exclusive_amended :
    ∀ (resume_text job_role job_description : String) (lang : Language)
      (api : Payload → ApiOutcome) (a b : PyVal),
      getLLMFeedback resume_text job_role job_description lang api = .ok (a, b) →
      (¬(a ≠ PyVal.none ∧ b ≠ PyVal.none)) ∧
      (a = PyVal.none → b = PyVal.none →
        ∃ data s,
          api (mkPayload resume_text job_role job_description lang) = ApiOutcome.ok data ∧
          candidatesOk data = .ok true ∧ extractJsonStr data = .ok (.str s) ∧
          jsonLoads s = .ok PyVal.none) := by
  intro rt jr jd lang api a b h
  unfold getLLMFeedback at h
  by_cases hrt : (rt == "") = true
  · rw [if_pos hrt] at h
    simp only [Except.ok.injEq, Prod.mk.injEq] at h
    constructor
    · intro hcon
      exact hcon.1 h.1.symm
    · intro _ hbn
      rw [← h.2] at hbn
      exact absurd hbn (by simp)
  · rw [if_neg hrt] at h
    cases hapi : api (mkPayload rt jr jd lang) with
    | retryExhausted => rw [hapi] at h; simp at h
    | badBody m =>
      rw [hapi] at h
      simp only [Except.ok.injEq, Prod.mk.injEq] at h
      constructor
      · intro hcon
        exact hcon.1 h.1.symm
      · intro _ hbn
        rw [← h.2] at hbn
        exact absurd hbn (by simp)
    | ok data =>
      rw [hapi] at h
      simp only [] at h
      cases ht : tryBody data with
      | ok r =>
        rw [ht] at h
        simp only [Except.ok.injEq] at h
        subst h
        rcases tryBody_ok data a b ht with ⟨hc, ha, hb⟩ | ⟨s, hc, he, hj, hb⟩
        · constructor
          · intro hcon
            exact hcon.1 ha
          · intro _ hbn
            rw [hb] at hbn
            exact absurd hbn (by simp)
        · constructor
          · intro hcon
            exact hcon.2 hb
          · intro han _
            subst han
            exact ⟨data, s, rfl, hc, he, hj⟩
      | error e =>
        rw [ht] at h
        simp only [] at h
        cases hic : e.isCaught with
        | true =>
          rw [hic] at h
          simp only [if_true] at h
          simp only [Except.ok.injEq, Prod.mk.injEq] at h
          constructor
          · intro hcon
            exact hcon.1 h.1.symm
          · intro _ hbn
            rw [← h.2] at hbn
            exact absurd hbn (by simp)
        | false =>
          rw [hic] at h
          simp at h

/-- Witness for the amended C9 at the null-payload response. -/
theorem c9_exclusive_amended_witness :
    (¬(PyVal.none ≠ PyVal.none ∧ PyVal.none ≠ PyVal.none)) ∧
    ∃ data s,
      (fun _ => ApiOutcome.ok respNullPayload)
          (mkPayload "resume" "Data Analyst" "" Language.English) = ApiOutcome.ok data ∧
      candidatesOk data = .ok true ∧ extractJsonStr data = .ok (.str s) ∧
      jsonLoads s = .ok PyVal.none := by
  have h := c9_exclusive_amended "resume" "Data Analyst" "" Language.English
    (fun _ => ApiOutcome.ok respNullPayload) PyVal.none PyVal.none rfl
  exact ⟨h.1, h.2 rfl rfl⟩

/-- Counterexample to C9 as stated: a response whose payload text is
the JSON literal null makes `get_llm_feedback` return a pair in which
neither component is set. -/
theorem c9_null_payload_cx :
    getLLMFeedback "resume" "Data Analyst" "" Language.English
        (fun _ => ApiOutcome.ok respNullPayload) =
      .ok (PyVal.none, PyVal.none) := rfl

lemma dict_renderSuggLine_ok (kvs : List (String × PyVal)) :
    ∃ r, renderSuggLine (.dict kvs) = .ok r := by
  unfold renderSuggLine suggGet
  cases hl : pyLookup kvs "heading" <;>
    cases ha : pyLookup kvs "advice" <;>
      simp only [hl, ha] <;> split <;> exact ⟨_, rfl⟩

lemma wellFormedSuggestion_isDict (s : PyVal) (h : wellFormedSuggestion s = true) :
    ∃ kvs, s = PyVal.dict kvs := by
  cases s with
  | dict kvs => exact ⟨kvs, rfl⟩
  | none => simp [wellFormedSuggestion] at h
  | bool b => simp [wellFormedSuggestion] at h
  | int n => simp [wellFormedSuggestion] at h
  | str t => simp [wellFormedSuggestion] at h
  | list xs => simp [wellFormedSuggestion] at h

/-- When no suggestion entry raises, the loop never aborts and the
rendered lines are the in-order projection of the renderable
entries. -/
lemma renderSuggList_no_err :
    ∀ xs : List PyVal, (∀ s ∈ xs, ∃ r, renderSuggLine s = .ok r) →
      (renderSuggList xs).2 = Option.none ∧
      (renderSuggList xs).1 = xs.filterMap (fun s =>
        match renderSuggLine s with
        | .ok (some line) => some (Step.markdown line)
        | _ => Option.none) := by
  intro xs
  induction xs with
  | nil => intro _; simp [renderSuggList]
  | cons s rest ih =>
    intro h
    obtain ⟨r, hr⟩ := h s (List.mem_cons_self s rest)
    obtain ⟨ih2, ih1⟩ := ih (fun t ht => h t (List.mem_cons_of_mem s ht))
    cases r with
    | none =>
      constructor
      · simp only [renderSuggList, hr]
        exact ih2
      · simp only [renderSuggList, hr, List.filterMap_cons]
        rw [ih1]
    | some line =>
      constructor
      · simp only [renderSuggList, hr]
        exact ih2
      · simp only [renderSuggList, hr, List.filterMap_cons]
        rw [ih1]

lemma suggComplete_renders (s : PyVal) (h : suggComplete s = true) :
    ∃ line, renderSuggLine s = .ok (some line) := by
  unfold suggComplete at h
  cases hh : suggGet s "heading" with
  | error e => rw [hh] at h; simp at h
  | ok hv =>
    cases ha : suggGet s "advice" with
    | error e => rw [hh, ha] at h; simp at h
    | ok av =>
      rw [hh, ha] at h
      have h2 : (truthy hv && truthy av) = true := h
      refine ⟨"**" ++ pyStr hv ++ ":** " ++ pyStr av, ?_⟩
      unfold renderSuggLine
      rw [hh, ha]
      simp [h2]

lemma renderSuggList_len :
    ∀ xs : List PyVal, (∀ s ∈ xs, suggComplete s = true) →
      (renderSuggList xs).1.length = xs.length := by
  intro xs
  induction xs with
  | nil => intro _; simp [renderSuggList]
  | cons s rest ih =>
    intro h
    obtain ⟨line, hl⟩ := suggComplete_renders s (h s (List.mem_cons_self s rest))
    simp only [renderSuggList, hl, List.length_cons]
    rw [ih (fun t ht => h t (List.mem_cons_of_mem s ht))]

lemma wf_suggestions (fd : PyVal) (h : wellFormedFeedbackPayload fd = true) :
    ∀ s ∈ suggestionsOf fd, wellFormedSuggestion s = true := by
  intro s hs
  cases fd with
  | dict kvs =>
    simp only [wellFormedFeedbackPayload] at h
    simp only [suggestionsOf] at hs
    rw [Bool.and_eq_true, Bool.and_eq_true] at h
    obtain ⟨⟨hX, _⟩, _⟩ := h
    split at hX
    · rename_i fr heq
      rw [Bool.and_eq_true] at hX
      obtain ⟨_, hA2⟩ := hX
      rw [heq] at hs
      have hs2 : s ∈ (match pyLookup fr "suggestions_for_improvement" with
                      | some (PyVal.list ss) => ss
                      | _ => ([] : List PyVal)) := hs
      split at hA2
      · rename_i ss heq2
        rw [heq2] at hs2
        have hs3 : s ∈ ss := hs2
        exact List.all_eq_true.mp hA2 s hs3
      · simp at hA2
    · simp at hX
  | none => simp [wellFormedFeedbackPayload] at h
  | bool b => simp [wellFormedFeedbackPayload] at h
  | int n => simp [wellFormedFeedbackPayload] at h
  | str t => simp [wellFormedFeedbackPayload] at h
  | list xs => simp [wellFormedFeedbackPayload] at h

/-- C6 (amended): for a schema-valid payload the renderer emits one
line per strength, in order; it emits one line per suggestion when
every suggestion has truthy (non-empty) heading and advice; the
suggestion loop never aborts on a schema-valid payload, and its output
is the in-order projection of the renderable entries, so entries whose
heading or advice is missing or empty are skipped silently while the
rest of the report renders. -/
theorem c6_renderer_amended :
    ∀ fd : PyVal, wellFormedFeedbackPayload fd = true →
      (renderStrengthLines (strengthsOf fd)).length = (strengthsOf fd).length ∧
      renderStrengthLines (strengthsOf fd) =
        (strengthsOf fd).map (fun v => Step.markdown ("- " ++ pyStr v)) ∧
      ((∀ s ∈ suggestionsOf fd, suggComplete s = true) →
        (renderSuggList (suggestionsOf fd)).1.length = (suggestionsOf fd).length) ∧
      (renderSuggList (suggestionsOf fd)).2 = Option.none ∧
      (renderSuggList (suggestionsOf fd)).1 =
        (suggestionsOf fd).filterMap (fun s =>
          match renderSuggLine s with
          | .ok (some line) => some (Step.markdown line)
          | _ => Option.none) := by
  intro fd hwf
  have hdicts : ∀ s ∈ suggestionsOf fd, ∃ r, renderSuggLine s = .ok r := by
    intro s hs
    obtain ⟨kvs, hk⟩ := wellFormedSuggestion_isDict s (wf_suggestions fd hwf s hs)
    subst hk
    exact dict_renderSuggLine_ok kvs
  obtain ⟨h2, h1⟩ := renderSuggList_no_err (suggestionsOf fd) hdicts
  exact ⟨by simp [renderStrengthLines], rfl,
    fun hc => renderSuggList_len (suggestionsOf fd) hc, h2, h1⟩

/-- Witness for the amended C6 at a complete payload. -/
theorem c6_renderer_amended_witness :
    (renderSuggList (suggestionsOf fdComplete)).1.length = (suggestionsOf fdComplete).length ∧
    (renderSuggList (suggestionsOf fdComplete)).2 = Option.none :=
  ⟨(c6_renderer_amended fdComplete (by rfl)).2.2.1 (by decide),
   (c6_renderer_amended fdComplete (by rfl)).2.2.2.1⟩

/-- Counterexample to C6 as stated: a payload that is schema-valid (a
suggestion heading may be the empty string) renders fewer suggestion
lines than the input array has entries. -/
theorem c6_length_match_cx :
    wellFormedFeedbackPayload fdEmptyHeading = true ∧
    (renderSuggList (suggestionsOf fdEmptyHeading)).1.length ≠
      (suggestionsOf fdEmptyHeading).length :=
  ⟨by rfl, by decide⟩

/-- C7: when the API key secret is absent, the job role is empty, or no
resume file was uploaded, the click handler reports exactly one
warning or error and the API client is never invoked. -/
theorem c7_preconditions :
    ∀ (job_role : String) (uploaded : Option UploadedFile) (apiKeyPresent : Bool)
      (job_description : String) (lang : Language) (api : Payload → ApiOutcome),
      (job_role = "" ∨ uploaded = Option.none ∨ apiKeyPresent = false) →
      Step.networkCall ∉ buttonHandler job_role uploaded apiKeyPresent job_description lang api ∧
      ∃ m, buttonHandler job_role uploaded apiKeyPresent job_description lang api = [Step.warn m] ∨
        buttonHandler job_role uploaded apiKeyPresent job_description lang api = [Step.err m] := by
  intro jr up key jd lang api h
  by_cases hjr : jr = ""
  · subst hjr
    constructor
    · simp [buttonHandler]
    · exact ⟨"Please specify a target job role.", Or.inl (by simp [buttonHandler])⟩
  · have hb : (jr == "") = false := beq_eq_false_iff_ne.mpr hjr
    cases up with
    | none =>
      constructor
      · simp [buttonHandler, hb]
      · exact ⟨"Please upload a resume file.", Or.inl (by simp [buttonHandler, hb])⟩
    | some f =>
      rcases h with h1 | h2 | h3
      · exact absurd h1 hjr
      · exact absurd h2 (by simp)
      · subst h3
        constructor
        · simp [buttonHandler, hb]
        · refine ⟨"API key not found. Please set the Gemini API key in your .streamlit/secrets.toml file.",
            Or.inr ?_⟩
          simp [buttonHandler, hb]

/-- Witness for C7 with every precondition failing. -/
theorem c7_preconditions_witness :
    Step.networkCall ∉ buttonHandler "" Option.none false "" Language.English
      (fun _ => ApiOutcome.retryExhausted) ∧
    ∃ m, buttonHandler "" Option.none false "" Language.English
        (fun _ => ApiOutcome.retryExhausted) = [Step.warn m] ∨
      buttonHandler "" Option.none false "" Language.English
        (fun _ => ApiOutcome.retryExhausted) = [Step.err m] :=
  c7_preconditions "" Option.none false "" Language.English
    (fun _ => ApiOutcome.retryExhausted) (Or.inl rfl)

/-- C10: a suggestion entry whose heading or advice is missing from the
dict, or present with an empty-string value, renders no line and is
omitted from the report while the remaining entries still render. -/
theorem c10_skip_empty :
    ∀ (kvs : List (String × PyVal)) (rest : List PyVal),
      (pyLookup kvs "heading" = Option.none ∨
       pyLookup kvs "heading" = some (.str "") ∨
       pyLookup kvs "advice" = Option.none ∨
       pyLookup kvs "advice" = some (.str "")) →
      renderSuggLine (.dict kvs) = .ok Option.none ∧
      (renderSuggList (.dict kvs :: rest)).1 = (renderSuggList rest).1 ∧
      (renderSuggList (.dict kvs :: rest)).2 = (renderSuggList rest).2 := by
  intro kvs rest h
  have hline : renderSuggLine (.dict kvs) = .ok Option.none := by
    unfold renderSuggLine suggGet
    simp only []
    rcases h with h | h | h | h
    · rw [h]
      cases ha : pyLookup kvs "advice" <;> simp [ha, truthy]
    · rw [h]
      cases ha : pyLookup kvs "advice" <;> simp [ha, truthy]
    · rw [h]
      cases hh : pyLookup kvs "heading" <;> simp [hh, truthy]
    · rw [h]
      cases hh : pyLookup kvs "heading" <;> simp [hh, truthy]
  refine ⟨hline, ?_, ?_⟩ <;> simp only [renderSuggList, hline]

/-- Witness for C10 on an entry without a heading key. -/
theorem c10_skip_empty_witness :
    renderSuggLine (.dict [("advice", PyVal.str "quantify results")]) = .ok Option.none ∧
    (renderSuggList (.dict [("advice", PyVal.str "quantify results")] :: [])).1 =
      (renderSuggList []).1 ∧
    (renderSuggList (.dict [("advice", PyVal.str "quantify results")] :: [])).2 =
      (renderSuggList []).2 :=
  c10_skip_empty [("advice", PyVal.str "quantify results")] [] (Or.inl rfl)

end Backend
